import Mathlib

/-!
Shallow embedding of the `weathered` crate (`src/lib.rs`): a typed request
builder for the open-meteo forecast HTTP API.  The Rust code assembles query
parameters (coordinates, settings, hourly/daily variable lists,
pressure-level variables) and serializes them to a URL string.

Modelling notes:
* Rust `f32` values are never computed with by this library: they are stored
  and printed with `Display`.  We model an `f32` as the string its `Display`
  implementation produces (`F32.render`).
* Rust `u8`/`u32` payloads are likewise only stored and printed in decimal;
  we model them as `Nat` (the code performs no arithmetic, so no overflow
  can arise) and render them with `Nat.repr`, which agrees with Rust's
  decimal `Display` on all in-range values.
* `strum`'s `derive(Display)` prints the bare variant name, ignoring any
  payload; the `name` functions below are that derived table, one arm per
  Rust variant, verbatim.
* Rust `&'a str` payloads become `String`.
* The typestate pair `NoCoordinates` / `Coordinates` and the generic
  `Forecast<'a, C>` struct are carried over directly: serialization
  (`Forecast.to_sring`, keeping the source's spelling) is only defined on
  `Forecast Coordinates`, exactly as in the Rust `impl` block.
-/

namespace Weathered

/-- Model of a Rust `f32` as this library uses one: the crate never does
arithmetic on its floats, it only stores them and prints them with `Display`,
so we carry the `Display` rendering of the value. -/
structure F32 where
  render : String
deriving DecidableEq

/-- The constant `BASE_URL` from `lib.rs`. -/
def BASE_URL : String := "https://api.open-meteo.com/v1/forecast"

/-- Temperature units (`enum Temperature`). -/
inductive Temperature where
  | celsius
  | fahrenheit
deriving DecidableEq

/-- Strum-derived `Display` for `Temperature`: the variant name. -/
def Temperature.name : Temperature → String
  | .celsius => "celsius"
  | .fahrenheit => "fahrenheit"

/-- Windspeed units (`enum Speed`). -/
inductive Speed where
  | kmh
  | ms
  | mph
  | kn
deriving DecidableEq

/-- Strum-derived `Display` for `Speed`: the variant name. -/
def Speed.name : Speed → String
  | .kmh => "kmh"
  | .ms => "ms"
  | .mph => "mph"
  | .kn => "kn"

/-- Precipitation units (`enum Precipitation`). -/
inductive Precipitation where
  | mm
  | inch
deriving DecidableEq

/-- Strum-derived `Display` for `Precipitation`: the variant name. -/
def Precipitation.name : Precipitation → String
  | .mm => "mm"
  | .inch => "inch"

/-- Valid time formats (`enum TimeFormat`). -/
inductive TimeFormat where
  | iso8601
  | unixtime
deriving DecidableEq

/-- Strum-derived `Display` for `TimeFormat`: the variant name. -/
def TimeFormat.name : TimeFormat → String
  | .iso8601 => "iso8601"
  | .unixtime => "unixtime"

/-- Cell selection (`enum Cell`). -/
inductive Cell where
  | land
  | sea
  | nearest
deriving DecidableEq

/-- Strum-derived `Display` for `Cell`: the variant name. -/
def Cell.name : Cell → String
  | .land => "land"
  | .sea => "sea"
  | .nearest => "nearest"

/-- Timezones (`enum Timezone<'a>`): an explicit (continent, country) pair or
automatic selection. -/
inductive Timezone where
  | explicit (continent country : String)
  | auto
deriving DecidableEq

/-- Embeds `Timezone::get`: the explicit pair is joined by the percent-encoded
slash `%2F`; `auto` renders as the literal string. -/
def Timezone.get : Timezone → String
  | .explicit continent country => continent ++ "%2F" ++ country
  | .auto => "auto"

/-- Settings and their payloads (`enum Settings<'a>`). -/
inductive Settings where
  | elevation (t : F32)
  | current_weather (t : Bool)
  | temperature_unit (t : Temperature)
  | windspeed_unit (t : Speed)
  | precipitation_unit (t : Precipitation)
  | timeformat (t : TimeFormat)
  | timezone (t : Timezone)
  | past_days (t : Nat)
  | forecast_days (t : Nat)
  | start_date (t : String)
  | end_date (t : String)
  | cell_selection (t : Cell)
deriving DecidableEq

/-- Strum-derived `Display` for `Settings`: the variant name, payload ignored.
This is the query-parameter key used by the serializer. -/
def Settings.name : Settings → String
  | .elevation _ => "elevation"
  | .current_weather _ => "current_weather"
  | .temperature_unit _ => "temperature_unit"
  | .windspeed_unit _ => "windspeed_unit"
  | .precipitation_unit _ => "precipitation_unit"
  | .timeformat _ => "timeformat"
  | .timezone _ => "timezone"
  | .past_days _ => "past_days"
  | .forecast_days _ => "forecast_days"
  | .start_date _ => "start_date"
  | .end_date _ => "end_date"
  | .cell_selection _ => "cell_selection"

/-- Embeds `Settings::get`: the rendering of the payload value.  Rust's
`to_string` on the nested enums is their strum `Display` (the variant name);
on `bool` it is `true`/`false`; on `u8` it is decimal; on `&str` it is the
string itself; on the timezone it is `Timezone::get`. -/
def Settings.get : Settings → String
  | .elevation t => t.render
  | .current_weather t => if t then "true" else "false"
  | .temperature_unit t => t.name
  | .windspeed_unit t => t.name
  | .precipitation_unit t => t.name
  | .cell_selection t => t.name
  | .timeformat t => t.name
  | .past_days t => Nat.repr t
  | .forecast_days t => Nat.repr t
  | .timezone t => t.get
  | .start_date t => t
  | .end_date t => t

/-- All Hourly flags (`enum Hourly`), one constructor per Rust variant. -/
inductive Hourly where
  | temperature_2m
  | relative_humidity_2m
  | dewpoint_2m
  | apparent_temperature
  | pressure_msl
  | surface_pressure
  | cloudcover
  | cloudcover_low
  | cloudcover_mid
  | cloudcover_high
  | windspeed_10m
  | windspeed_80m
  | windspeed_120m
  | windspeed_180m
  | winddirection_10m
  | windspeedtion_80m
  | windspeedtion_120m
  | windspeedtion_180m
  | windgusts_10m
  | shortwave_radiation
  | direct_radiation
  | direct_normal_irradiance
  | diffuse_radiation
  | vapor_pressure_deficit
  | cape
  | evapotranspiration
  | et0_fao_evapotranspiration
  | precipitation
  | snowfall
  | precipitation_probability
  | rain
  | showers
  | weathercode
  | snow_depth
  | freezinglevel_height
  | visibility
  | soil_temperature_0cm
  | soil_temperature_6cm
  | soil_temperature_18cm
  | soil_temperature_54cm
  | soil_moisture_0_1cm
  | soil_moisture_1_3cm
  | soil_moisture_4_9cm
  | soil_moisture_9_27cm
  | soil_moisture_27_81cm
  | is_day
deriving DecidableEq, Fintype

/-- Strum-derived `Display` for `Hourly`: the variant name. -/
def Hourly.name : Hourly → String
  | .temperature_2m => "temperature_2m"
  | .relative_humidity_2m => "relative_humidity_2m"
  | .dewpoint_2m => "dewpoint_2m"
  | .apparent_temperature => "apparent_temperature"
  | .pressure_msl => "pressure_msl"
  | .surface_pressure => "surface_pressure"
  | .cloudcover => "cloudcover"
  | .cloudcover_low => "cloudcover_low"
  | .cloudcover_mid => "cloudcover_mid"
  | .cloudcover_high => "cloudcover_high"
  | .windspeed_10m => "windspeed_10m"
  | .windspeed_80m => "windspeed_80m"
  | .windspeed_120m => "windspeed_120m"
  | .windspeed_180m => "windspeed_180m"
  | .winddirection_10m => "winddirection_10m"
  | .windspeedtion_80m => "windspeedtion_80m"
  | .windspeedtion_120m => "windspeedtion_120m"
  | .windspeedtion_180m => "windspeedtion_180m"
  | .windgusts_10m => "windgusts_10m"
  | .shortwave_radiation => "shortwave_radiation"
  | .direct_radiation => "direct_radiation"
  | .direct_normal_irradiance => "direct_normal_irradiance"
  | .diffuse_radiation => "diffuse_radiation"
  | .vapor_pressure_deficit => "vapor_pressure_deficit"
  | .cape => "cape"
  | .evapotranspiration => "evapotranspiration"
  | .et0_fao_evapotranspiration => "et0_fao_evapotranspiration"
  | .precipitation => "precipitation"
  | .snowfall => "snowfall"
  | .precipitation_probability => "precipitation_probability"
  | .rain => "rain"
  | .showers => "showers"
  | .weathercode => "weathercode"
  | .snow_depth => "snow_depth"
  | .freezinglevel_height => "freezinglevel_height"
  | .visibility => "visibility"
  | .soil_temperature_0cm => "soil_temperature_0cm"
  | .soil_temperature_6cm => "soil_temperature_6cm"
  | .soil_temperature_18cm => "soil_temperature_18cm"
  | .soil_temperature_54cm => "soil_temperature_54cm"
  | .soil_moisture_0_1cm => "soil_moisture_0_1cm"
  | .soil_moisture_1_3cm => "soil_moisture_1_3cm"
  | .soil_moisture_4_9cm => "soil_moisture_4_9cm"
  | .soil_moisture_9_27cm => "soil_moisture_9_27cm"
  | .soil_moisture_27_81cm => "soil_moisture_27_81cm"
  | .is_day => "is_day"

/-- Available pressure variables (`enum PressureVar`): seven measurement
kinds, each carrying a `u32` pressure level in hectopascals. -/
inductive PressureVar where
  | temperature (h : Nat)
  | relativehumidity (h : Nat)
  | dewpoint (h : Nat)
  | cloudcover (h : Nat)
  | windspeed (h : Nat)
  | winddirection (h : Nat)
  | geopotential_height (h : Nat)
deriving DecidableEq

/-- Strum-derived `Display` for `PressureVar`: the variant name, payload
ignored. -/
def PressureVar.name : PressureVar → String
  | .temperature _ => "temperature"
  | .relativehumidity _ => "relativehumidity"
  | .dewpoint _ => "dewpoint"
  | .cloudcover _ => "cloudcover"
  | .windspeed _ => "windspeed"
  | .winddirection _ => "winddirection"
  | .geopotential_height _ => "geopotential_height"

/-- The pressure level carried by any `PressureVar` (the `value` binding in
`PressureVar::get`, which matches every variant to its payload). -/
def PressureVar.level : PressureVar → Nat
  | .temperature h => h
  | .relativehumidity h => h
  | .dewpoint h => h
  | .cloudcover h => h
  | .windspeed h => h
  | .winddirection h => h
  | .geopotential_height h => h

/-- Embeds `PressureVar::get`: `format!("{}_{}hPa", self, value)`, i.e. the
variant name, an underscore, the decimal level, and the suffix `hPa`. -/
def PressureVar.get (p : PressureVar) : String :=
  p.name ++ "_" ++ Nat.repr p.level ++ "hPa"

/-- Daily data flags (`enum Daily`), one constructor per Rust variant. -/
inductive Daily where
  | temperature_2m_max
  | temperature_2m_min
  | apparent_temperature_max
  | apparent_temperature_min
  | precipitation_sum
  | rain_sum
  | showers_sum
  | swnofall_sum
  | precipitation_hours
  | precipitation_probability_max
  | precipitation_probability_min
  | precipitation_probability_mean
  | weathercode
  | sunrise
  | sunset
  | windspeed_10m_max
  | windgusts_10m_max
  | winddirection_10m_dominant
  | shortwave_radiation_sum
  | et0_fao_evapotranspiration
  | uv_index_max
  | uv_index_clear_sky_max
deriving DecidableEq, Fintype

/-- Strum-derived `Display` for `Daily`: the variant name. -/
def Daily.name : Daily → String
  | .temperature_2m_max => "temperature_2m_max"
  | .temperature_2m_min => "temperature_2m_min"
  | .apparent_temperature_max => "apparent_temperature_max"
  | .apparent_temperature_min => "apparent_temperature_min"
  | .precipitation_sum => "precipitation_sum"
  | .rain_sum => "rain_sum"
  | .showers_sum => "showers_sum"
  | .swnofall_sum => "swnofall_sum"
  | .precipitation_hours => "precipitation_hours"
  | .precipitation_probability_max => "precipitation_probability_max"
  | .precipitation_probability_min => "precipitation_probability_min"
  | .precipitation_probability_mean => "precipitation_probability_mean"
  | .weathercode => "weathercode"
  | .sunrise => "sunrise"
  | .sunset => "sunset"
  | .windspeed_10m_max => "windspeed_10m_max"
  | .windgusts_10m_max => "windgusts_10m_max"
  | .winddirection_10m_dominant => "winddirection_10m_dominant"
  | .shortwave_radiation_sum => "shortwave_radiation_sum"
  | .et0_fao_evapotranspiration => "et0_fao_evapotranspiration"
  | .uv_index_max => "uv_index_max"
  | .uv_index_clear_sky_max => "uv_index_clear_sky_max"

/-- Typestate marker for a forecast without coordinates (`struct
NoCoordinates`, zero-sized). -/
structure NoCoordinates where
deriving DecidableEq

/-- Typestate payload for a forecast with coordinates (`struct Coordinates`).
-/
structure Coordinates where
  latitude : F32
  longitude : F32
deriving DecidableEq

/-- The generic forecast request (`struct Forecast<'a, C>`): a coordinate
slot of typestate `C` plus four ordered option lists. -/
structure Forecast (C : Type) where
  coordinates : C
  settings : List Settings
  hourly : List Hourly
  pressure_var : List PressureVar
  daily : List Daily

/-- Embeds `Forecast::new`: the `Default` forecast without coordinates —
every list empty. -/
def Forecast.new : Forecast NoCoordinates :=
  { coordinates := ⟨⟩, settings := [], hourly := [], pressure_var := [], daily := [] }

/-- Embeds `Forecast::coord`: moves a coordinate-less forecast to the
coordinate-bearing typestate, keeping all four lists. -/
def Forecast.coord (f : Forecast NoCoordinates) (latitude longitude : F32) :
    Forecast Coordinates :=
  { coordinates := { latitude := latitude, longitude := longitude },
    settings := f.settings,
    hourly := f.hourly,
    pressure_var := f.pressure_var,
    daily := f.daily }

/-- Embeds the `Forecast::settings` method (primed because the structure
field projection already uses the name): the Rust loop pushes each element of
the argument slice onto the end of the stored list, in argument order. -/
def Forecast.settings' {C : Type} (f : Forecast C) (s : List Settings) : Forecast C :=
  { f with settings := f.settings ++ s }

/-- Embeds the `Forecast::hourly` method: appends the argument slice to the
stored hourly list, in argument order. -/
def Forecast.hourly' {C : Type} (f : Forecast C) (h : List Hourly) : Forecast C :=
  { f with hourly := f.hourly ++ h }

/-- Embeds the `Forecast::daily` method: appends the argument slice to the
stored daily list, in argument order. -/
def Forecast.daily' {C : Type} (f : Forecast C) (d : List Daily) : Forecast C :=
  { f with daily := f.daily ++ d }

/-- Embeds the `Forecast::pressure_var` method: appends the argument slice to
the stored pressure-variable list, in argument order. -/
def Forecast.pressure_var' {C : Type} (f : Forecast C) (p : List PressureVar) :
    Forecast C :=
  { f with pressure_var := f.pressure_var ++ p }

/-- Embeds `Forecast::to_sring` (source spelling kept), defined — as in the
Rust `impl Forecast<'a, Coordinates>` block — only on a coordinate-bearing
forecast.  The `String` accumulator mirrors the `push_str` sequence: base
URL, `?latitude=..&longitude=..`, one `&key=value` per setting in order, the
hourly block (only if non-empty: `&hourly=` then `,name` per entry), the
daily block likewise, then one `&token` per pressure variable in order. -/
def Forecast.to_sring (f : Forecast Coordinates) : String :=
  let url := BASE_URL
  let url := url ++ ("?latitude=" ++ f.coordinates.latitude.render
    ++ "&longitude=" ++ f.coordinates.longitude.render)
  let url := f.settings.foldl (fun u el => u ++ ("&" ++ el.name ++ "=" ++ el.get)) url
  let url := if f.hourly.isEmpty then url else
    f.hourly.foldl (fun u el => u ++ ("," ++ el.name)) (url ++ "&hourly=")
  let url := if f.daily.isEmpty then url else
    f.daily.foldl (fun u el => u ++ ("," ++ el.name)) (url ++ "&daily=")
  f.pressure_var.foldl (fun u el => u ++ ("&" ++ el.get)) url

/-- Concatenation of the renderings of a list's elements, in order. -/
def concatMap {α : Type} (g : α → String) : List α → String
  | [] => ""
  | a :: l => g a ++ concatMap g l

/-- The fixed `?latitude=..&longitude=..` part of every serialized URL. -/
def coordFragment (c : Coordinates) : String :=
  BASE_URL ++ ("?latitude=" ++ c.latitude.render ++ "&longitude=" ++ c.longitude.render)

/-- The settings part of the query string: `&key=value` per entry, in order.
-/
def settingsFragment (l : List Settings) : String :=
  concatMap (fun el => "&" ++ el.name ++ "=" ++ el.get) l

/-- The hourly part of the query string: nothing when the list is empty,
otherwise `&hourly=` followed by `,name` for every entry — the first
included. -/
def hourlyFragment (l : List Hourly) : String :=
  if l.isEmpty then "" else "&hourly=" ++ concatMap (fun el => "," ++ el.name) l

/-- The daily part of the query string: nothing when the list is empty,
otherwise `&daily=` followed by `,name` for every entry — the first
included. -/
def dailyFragment (l : List Daily) : String :=
  if l.isEmpty then "" else "&daily=" ++ concatMap (fun el => "," ++ el.name) l

/-- The pressure-variable part of the query string: `&` then the fused
`name_levelhPa` token per entry, in order, with no `=` sign. -/
def pressureFragment (l : List PressureVar) : String :=
  concatMap (fun el => "&" ++ el.get) l

/-- A `push_str` loop starting from accumulator `acc` appends exactly the
concatenation of the rendered elements. -/
theorem foldl_push_eq {α : Type} (g : α → String) :
    ∀ (l : List α) (acc : String),
      l.foldl (fun u el => u ++ g el) acc = acc ++ concatMap g l
  | [], acc => (String.append_empty acc).symm
  | a :: l, acc => by
    rw [List.foldl_cons, foldl_push_eq g l, concatMap, ← String.append_assoc]

/-- Decomposition of the serializer: the URL is the coordinate fragment
followed by the settings, hourly, daily and pressure-variable fragments, in
that fixed order. -/
theorem to_sring_decomp (f : Forecast Coordinates) :
    f.to_sring = coordFragment f.coordinates ++ settingsFragment f.settings
      ++ hourlyFragment f.hourly ++ dailyFragment f.daily
      ++ pressureFragment f.pressure_var := by
  cases hh : f.hourly.isEmpty <;> cases hd : f.daily.isEmpty <;>
    simp only [Forecast.to_sring, hh, hd, Bool.false_eq_true, if_false, if_true,
      foldl_push_eq, hourlyFragment, dailyFragment, coordFragment, settingsFragment,
      pressureFragment, String.append_assoc, String.append_empty, String.empty_append]

set_option maxRecDepth 10000 in
/-- C1: the reference fixture — coordinates (50.1, 50.1), settings
[elevation(1000.1), timezone(explicit("Europe", "London"))], hourly
[rain, cape], daily [sunrise, sunset], pressure variables [dewpoint(50),
windspeed(30)] — serializes to exactly the expected URL string of the
`url_creation` test. -/
theorem C1_url_creation :
    (((((Forecast.new.coord ⟨"50.1"⟩ ⟨"50.1"⟩).settings'
          [Settings.elevation ⟨"1000.1"⟩,
           Settings.timezone (Timezone.explicit "Europe" "London")]).hourly'
          [Hourly.rain, Hourly.cape]).daily'
          [Daily.sunrise, Daily.sunset]).pressure_var'
          [PressureVar.dewpoint 50, PressureVar.windspeed 30]).to_sring
      = "https://api.open-meteo.com/v1/forecast?latitude=50.1&longitude=50.1&elevation=1000.1&timezone=Europe%2FLondon&hourly=,rain,cape&daily=,sunrise,sunset&dewpoint_50hPa&windspeed_30hPa" := by
  decide

/-- C2: serialization exists only for the coordinate-bearing typestate —
`Forecast.to_sring` is defined on `Forecast Coordinates` alone, exactly as
the Rust `impl Forecast<'a, Coordinates>` block, so a request on which
`coord` was never called cannot be serialized — and every URL the serializer
produces begins with the base URL and the latitude/longitude fragment, so no
URL missing that fragment is ever emitted; every other operation is a total
function on both typestates. -/
theorem C2_serialize_requires_coordinates (f : Forecast Coordinates) :
    ∃ rest, f.to_sring
      = BASE_URL ++ ("?latitude=" ++ f.coordinates.latitude.render
          ++ "&longitude=" ++ f.coordinates.longitude.render) ++ rest := by
  refine ⟨settingsFragment f.settings ++ hourlyFragment f.hourly
    ++ dailyFragment f.daily ++ pressureFragment f.pressure_var, ?_⟩
  simp only [to_sring_decomp, coordFragment, String.append_assoc]

/-- C3: in every serialized URL, an empty hourly list contributes nothing
while a non-empty one contributes `&hourly=` followed by `,name` for every
entry — the first included; the daily list obeys the same rule under the key
`daily`; and the list [rain, cape] renders to the fragment
`&hourly=,rain,cape`. -/
theorem C3_hourly_daily_rendering :
    (∀ f : Forecast Coordinates,
      f.to_sring = coordFragment f.coordinates ++ settingsFragment f.settings
        ++ (if f.hourly.isEmpty then ""
            else "&hourly=" ++ concatMap (fun el => "," ++ el.name) f.hourly)
        ++ (if f.daily.isEmpty then ""
            else "&daily=" ++ concatMap (fun el => "," ++ el.name) f.daily)
        ++ pressureFragment f.pressure_var)
    ∧ hourlyFragment [Hourly.rain, Hourly.cape] = "&hourly=,rain,cape"
    ∧ hourlyFragment [] = "" ∧ dailyFragment [] = "" :=
  ⟨fun f => to_sring_decomp f, by decide, rfl, rfl⟩

/-- C4: a fresh request given only coordinates serializes to exactly the
base URL with the latitude/longitude query and nothing else, using the
values' default renderings. -/
theorem C4_minimal_request (lat lon : F32) :
    (Forecast.new.coord lat lon).to_sring
      = BASE_URL ++ ("?latitude=" ++ lat.render ++ "&longitude=" ++ lon.render) :=
  rfl

/-- C5: appends are order-preserving batch concatenations: splitting a batch
across two calls equals one call with the concatenated list, for all four
lists and in either typestate; and the serializer renders the settings list
— duplicates included, nothing reordered or deduplicated — as the in-order
concatenation of one `&key=value` fragment per entry. -/
theorem C5_order_and_batching :
    (∀ (C : Type) (f : Forecast C) (a b : List Settings),
      (f.settings' a).settings' b = f.settings' (a ++ b))
    ∧ (∀ (C : Type) (f : Forecast C) (a b : List Hourly),
      (f.hourly' a).hourly' b = f.hourly' (a ++ b))
    ∧ (∀ (C : Type) (f : Forecast C) (a b : List Daily),
      (f.daily' a).daily' b = f.daily' (a ++ b))
    ∧ (∀ (C : Type) (f : Forecast C) (a b : List PressureVar),
      (f.pressure_var' a).pressure_var' b = f.pressure_var' (a ++ b))
    ∧ (∀ f : Forecast Coordinates, ∃ p s,
      f.to_sring
        = p ++ concatMap (fun el => "&" ++ el.name ++ "=" ++ el.get) f.settings ++ s) := by
  refine ⟨?_, ?_, ?_, ?_, ?_⟩
  · intro C f a b; simp [Forecast.settings']
  · intro C f a b; simp [Forecast.hourly']
  · intro C f a b; simp [Forecast.daily']
  · intro C f a b; simp [Forecast.pressure_var']
  · intro f
    refine ⟨coordFragment f.coordinates,
      hourlyFragment f.hourly ++ dailyFragment f.daily
        ++ pressureFragment f.pressure_var, ?_⟩
    simp only [to_sring_decomp, settingsFragment, String.append_assoc]

/-- C6: the explicit timezone (continent, country) renders as the pair
joined by the percent-encoded slash `%2F` and contributes the fragment
`&timezone=continent%2Fcountry` (`&timezone=Europe%2FLondon` for
(Europe, London)); `auto` contributes `&timezone=auto`; and no other
percent-encoding is applied anywhere: date strings pass through unchanged
and no variant name of the catalog contains a percent sign. -/
theorem C6_timezone_rendering :
    (∀ continent country : String,
      Timezone.get (Timezone.explicit continent country)
        = continent ++ "%2F" ++ country)
    ∧ Timezone.get Timezone.auto = "auto"
    ∧ (∀ continent country : String,
      (Settings.timezone (Timezone.explicit continent country)).get
        = continent ++ "%2F" ++ country)
    ∧ settingsFragment [Settings.timezone (Timezone.explicit "Europe" "London")]
        = "&timezone=Europe%2FLondon"
    ∧ settingsFragment [Settings.timezone Timezone.auto] = "&timezone=auto"
    ∧ (∀ t : String, (Settings.start_date t).get = t)
    ∧ (∀ t : String, (Settings.end_date t).get = t)
    ∧ (∀ h : Hourly, '%' ∉ h.name.data)
    ∧ (∀ d : Daily, '%' ∉ d.name.data)
    ∧ (∀ s : Settings, '%' ∉ s.name.data)
    ∧ (∀ p : PressureVar, '%' ∉ p.name.data) := by
  refine ⟨fun c k => rfl, rfl, fun c k => rfl, by decide, by decide,
    fun t => rfl, fun t => rfl, ?_, ?_, ?_, ?_⟩
  · intro h; cases h <;> decide
  · intro d; cases d <;> decide
  · intro s; cases s <;> simp only [Settings.name] <;> decide
  · intro p; cases p <;> simp only [PressureVar.name] <;> decide

/-- C7: every pressure-level variable renders as the fused token
`name_levelhPa` — variant name, underscore, decimal level, `hPa` suffix —
and the serializer emits it as `&` followed by that token, with no `=` sign,
one per entry in insertion order; dewpoint(50) gives `dewpoint_50hPa` and
windspeed(30) gives `windspeed_30hPa`. -/
theorem C7_pressure_rendering :
    (∀ p : PressureVar, p.get = p.name ++ "_" ++ Nat.repr p.level ++ "hPa")
    ∧ (PressureVar.dewpoint 50).get = "dewpoint_50hPa"
    ∧ (PressureVar.windspeed 30).get = "windspeed_30hPa"
    ∧ pressureFragment [PressureVar.dewpoint 50, PressureVar.windspeed 30]
        = "&dewpoint_50hPa&windspeed_30hPa"
    ∧ '=' ∉ ("&" ++ (PressureVar.dewpoint 50).get).data
    ∧ '=' ∉ ("&" ++ (PressureVar.windspeed 30).get).data
    ∧ (∀ f : Forecast Coordinates, ∃ pre,
      f.to_sring = pre ++ concatMap (fun el => "&" ++ el.get) f.pressure_var) := by
  refine ⟨fun p => rfl, by decide, by decide, by decide, by decide, by decide, ?_⟩
  intro f
  exact ⟨coordFragment f.coordinates ++ settingsFragment f.settings
    ++ hourlyFragment f.hourly ++ dailyFragment f.daily, to_sring_decomp f⟩

/-- C8 counterexample: the claim's counts are false on the code — the Hourly
enumeration has 46 members, not 45 (Daily does have 22). -/
theorem C8_counterexample :
    ¬ (Fintype.card Hourly = 45 ∧ Fintype.card Daily = 22) := by
  intro h
  exact absurd h.1 (by decide)

/-- C8 (amended): the Hourly enumeration has exactly 46 payload-free members
and the Daily enumeration exactly 22. -/
theorem C8_variant_counts :
    Fintype.card Hourly = 46 ∧ Fintype.card Daily = 22 := by
  exact ⟨by decide, by decide⟩

/-- C9: appending an empty list is an identity on the request itself, for
all four list operations and in either typestate, and therefore leaves the
serialized output of a coordinate-bearing request unchanged. -/
theorem C9_empty_append_identity :
    (∀ (C : Type) (f : Forecast C),
      f.settings' [] = f ∧ f.hourly' [] = f ∧ f.daily' [] = f
        ∧ f.pressure_var' [] = f)
    ∧ (∀ f : Forecast Coordinates,
      (f.settings' []).to_sring = f.to_sring
        ∧ (f.hourly' []).to_sring = f.to_sring
        ∧ (f.daily' []).to_sring = f.to_sring
        ∧ (f.pressure_var' []).to_sring = f.to_sring) := by
  have hs : ∀ (C : Type) (f : Forecast C), f.settings' [] = f := by
    intro C f; simp [Forecast.settings']
  have hh : ∀ (C : Type) (f : Forecast C), f.hourly' [] = f := by
    intro C f; simp [Forecast.hourly']
  have hd : ∀ (C : Type) (f : Forecast C), f.daily' [] = f := by
    intro C f; simp [Forecast.daily']
  have hp : ∀ (C : Type) (f : Forecast C), f.pressure_var' [] = f := by
    intro C f; simp [Forecast.pressure_var']
  exact ⟨fun C f => ⟨hs C f, hh C f, hd C f, hp C f⟩,
    fun f => ⟨by rw [hs _ f], by rw [hh _ f], by rw [hd _ f], by rw [hp _ f]⟩⟩

/-- C10: each builder operation touches only its own field: `coord` sets the
coordinates and leaves the four lists unchanged, and each list append leaves
the coordinate slot (in either typestate) and the other three lists
unchanged. -/
theorem C10_frame_effects :
    (∀ (f : Forecast NoCoordinates) (lat lon : F32),
      (f.coord lat lon).coordinates = ⟨lat, lon⟩
      ∧ (f.coord lat lon).settings = f.settings
      ∧ (f.coord lat lon).hourly = f.hourly
      ∧ (f.coord lat lon).daily = f.daily
      ∧ (f.coord lat lon).pressure_var = f.pressure_var)
    ∧ (∀ (C : Type) (f : Forecast C) (a : List Settings),
      (f.settings' a).coordinates = f.coordinates
      ∧ (f.settings' a).hourly = f.hourly
      ∧ (f.settings' a).daily = f.daily
      ∧ (f.settings' a).pressure_var = f.pressure_var)
    ∧ (∀ (C : Type) (f : Forecast C) (a : List Hourly),
      (f.hourly' a).coordinates = f.coordinates
      ∧ (f.hourly' a).settings = f.settings
      ∧ (f.hourly' a).daily = f.daily
      ∧ (f.hourly' a).pressure_var = f.pressure_var)
    ∧ (∀ (C : Type) (f : Forecast C) (a : List Daily),
      (f.daily' a).coordinates = f.coordinates
      ∧ (f.daily' a).settings = f.settings
      ∧ (f.daily' a).hourly = f.hourly
      ∧ (f.daily' a).pressure_var = f.pressure_var)
    ∧ (∀ (C : Type) (f : Forecast C) (a : List PressureVar),
      (f.pressure_var' a).coordinates = f.coordinates
      ∧ (f.pressure_var' a).settings = f.settings
      ∧ (f.pressure_var' a).hourly = f.hourly
      ∧ (f.pressure_var' a).daily = f.daily) :=
  ⟨fun _ _ _ => ⟨rfl, rfl, rfl, rfl, rfl⟩,
   fun _ _ _ => ⟨rfl, rfl, rfl, rfl⟩,
   fun _ _ _ => ⟨rfl, rfl, rfl, rfl⟩,
   fun _ _ _ => ⟨rfl, rfl, rfl, rfl⟩,
   fun _ _ _ => ⟨rfl, rfl, rfl, rfl⟩⟩

end Weathered
